import Mathlib

/-
Shallow embedding of the ParameterPath Optimizer extrusion engine
(src/engine/materials.ts, defects.ts, optimizer.ts, diagnose.ts).

Modelling conventions:
- JavaScript numbers are modelled as rationals.  All inputs the engine
  receives and all table constants are exactly representable; the claims
  proved below do not depend on float rounding.
- Math.PI is modelled by the rational constant jsPI (the 16-digit decimal
  value of the double Math.PI); no claim below depends on its exact value,
  only on its positivity.
- Math.sqrt is modelled by Rat.sqrt, a computable rational approximation;
  no claim below depends on its value (it feeds only a clamped quantity).
- Math.round is floor (x + 1/2), which agrees with JavaScript on all reals.
- The diagnoser mutates shared state: analyzeCauses copies the causes
  array with a spread but the CauseEntry objects inside are the same
  objects held by DEFECT_DATABASE, and the forEach body assigns to their
  probability and explanation fields.  This is embedded by threading the
  table state explicitly: diagnoseDefectS takes the current table and
  returns the result together with the updated table.
-/

namespace Engine

/-- Material identities, from the MaterialType union in types.ts. -/
inductive MaterialType
  | HDPE
  | LDPE
  | LLDPE
  | EVOH
deriving DecidableEq

/-- Defect identities, from the DefectType union in types.ts. -/
inductive DefectType
  | melt_fracture
  | shark_skin
  | die_lines
  | voids_bubbles
  | warping
  | inconsistent_wall_thickness
  | surface_roughness
  | gauge_bands
  | wrinkles
  | blocking
  | gels
  | poor_clarity
  | bubble_instability
deriving DecidableEq

/-- A min and max pair, as used throughout the material table. -/
structure NumRange where
  min : ℚ
  max : ℚ
deriving DecidableEq

/-- A barrel zone temperature window with a recommended value. -/
structure ZoneRange where
  min : ℚ
  max : ℚ
  recommended : ℚ
deriving DecidableEq

/-- The four barrel temperature zones of a material profile. -/
structure BarrelTemperatures where
  feed : ZoneRange
  compression : ZoneRange
  metering : ZoneRange
  die : ZoneRange
deriving DecidableEq

/-- One entry of the material property table (types.ts MaterialProperties). -/
structure MaterialProperties where
  name : String
  fullName : String
  meltTempRange : NumRange
  processingTempRange : NumRange
  barrelTemperatures : BarrelTemperatures
  screwSpeedRange : NumRange
  meltPressureRange : NumRange
  blowUpRatioRange : NumRange
  frostLineHeightFactor : ℚ
  notes : List String
deriving DecidableEq

/-- The static material table MATERIALS from materials.ts. -/
def MATERIALS : MaterialType → MaterialProperties
  | .HDPE =>
    { name := "HDPE"
      fullName := "High-Density Polyethylene"
      meltTempRange := { min := 400, max := 500 }
      processingTempRange := { min := 350, max := 550 }
      barrelTemperatures :=
        { feed := { min := 300, max := 350, recommended := 325 }
          compression := { min := 360, max := 420, recommended := 390 }
          metering := { min := 400, max := 460, recommended := 430 }
          die := { min := 410, max := 480, recommended := 445 } }
      screwSpeedRange := { min := 30, max := 120 }
      meltPressureRange := { min := 2500, max := 5500 }
      blowUpRatioRange := { min := 2.0, max := 4.0 }
      frostLineHeightFactor := 1.2
      notes :=
        [ "HDPE requires higher melt temps than LDPE for proper flow",
          "Sensitive to screw speed - too fast causes melt fracture",
          "Good mechanical properties but narrower processing window",
          "May require melt pressure monitoring for quality control" ] }
  | .LDPE =>
    { name := "LDPE"
      fullName := "Low-Density Polyethylene"
      meltTempRange := { min := 340, max := 450 }
      processingTempRange := { min := 300, max := 500 }
      barrelTemperatures :=
        { feed := { min := 280, max := 330, recommended := 305 }
          compression := { min := 320, max := 380, recommended := 350 }
          metering := { min := 360, max := 420, recommended := 390 }
          die := { min := 370, max := 440, recommended := 405 } }
      screwSpeedRange := { min := 40, max := 150 }
      meltPressureRange := { min := 2000, max := 4500 }
      blowUpRatioRange := { min := 1.5, max := 3.5 }
      frostLineHeightFactor := 1.0
      notes :=
        [ "LDPE has excellent processability and wide operating window",
          "Good optical clarity possible at lower melt temps",
          "Branched structure allows high output rates",
          "Less sensitive to processing variations than HDPE" ] }
  | .LLDPE =>
    { name := "LLDPE"
      fullName := "Linear Low-Density Polyethylene"
      meltTempRange := { min := 360, max := 480 }
      processingTempRange := { min := 320, max := 520 }
      barrelTemperatures :=
        { feed := { min := 290, max := 340, recommended := 315 }
          compression := { min := 340, max := 400, recommended := 370 }
          metering := { min := 380, max := 440, recommended := 410 }
          die := { min := 390, max := 460, recommended := 425 } }
      screwSpeedRange := { min := 35, max := 130 }
      meltPressureRange := { min := 3000, max := 6000 }
      blowUpRatioRange := { min := 2.0, max := 4.5 }
      frostLineHeightFactor := 1.1
      notes :=
        [ "LLDPE requires higher motor load than LDPE - monitor amps",
          "Superior puncture and tear resistance",
          "Higher melt viscosity - may need higher temps",
          "Often blended with LDPE for improved processability" ] }
  | .EVOH =>
    { name := "EVOH"
      fullName := "Ethylene Vinyl Alcohol"
      meltTempRange := { min := 380, max := 440 }
      processingTempRange := { min := 350, max := 470 }
      barrelTemperatures :=
        { feed := { min := 320, max := 360, recommended := 340 }
          compression := { min := 360, max := 400, recommended := 380 }
          metering := { min := 380, max := 430, recommended := 405 }
          die := { min := 390, max := 440, recommended := 415 } }
      screwSpeedRange := { min := 20, max := 80 }
      meltPressureRange := { min := 2800, max := 5000 }
      blowUpRatioRange := { min := 1.8, max := 3.0 }
      frostLineHeightFactor := 0.9
      notes :=
        [ "EVOH is hygroscopic - material must be dried before processing",
          "Narrow processing window - temperature control is critical",
          "Excellent gas barrier properties but moisture sensitive",
          "Often used as barrier layer in coextrusion",
          "Lower screw speeds recommended to prevent degradation" ] }

/-- Table accessor getMaterial from materials.ts. -/
def getMaterial (t : MaterialType) : MaterialProperties := MATERIALS t

/-- Probability tiers of a defect cause (types.ts union high | medium | low). -/
inductive Probability
  | high
  | medium
  | low
deriving DecidableEq

/-- One candidate cause of a defect (types.ts DefectCause). -/
structure DefectCause where
  cause : String
  probability : Probability
  adjustments : List String
  explanation : String
deriving DecidableEq

/-- One entry of the defect table (defects.ts DefectInfo). -/
structure DefectInfo where
  name : String
  description : String
  causes : List DefectCause
  generalRecommendations : List String
deriving DecidableEq

/-- Table accessor getAllMaterials from materials.ts (Object.keys order). -/
def getAllMaterials : List MaterialType :=
  [.HDPE, .LDPE, .LLDPE, .EVOH]

/-- Entry melt_fracture of DEFECT_DATABASE in defects.ts. -/
def defectMeltFracture : DefectInfo :=
  { name := "Melt Fracture"
    description := "Surface distortion appearing as irregular roughness, often with a \"sharkskin\" or helical pattern. Caused by excessive shear stress at the die exit."
    causes :=
      [ { cause := "Excessive output rate"
          probability := .high
          adjustments :=
            [ "Reduce screw speed by 10-20%",
              "Decrease line speed proportionally",
              "Consider larger die gap" ]
          explanation := "High throughput increases wall shear stress beyond the critical value for the polymer." },
        { cause := "Melt temperature too low"
          probability := .high
          adjustments :=
            [ "Increase metering zone temp by 10-20°F",
              "Increase die temp by 10-15°F",
              "Allow stabilization time (10-15 min)" ]
          explanation := "Lower temperatures increase melt viscosity, raising shear stress at the die wall." },
        { cause := "Die land length insufficient"
          probability := .medium
          adjustments :=
            [ "Use die with longer land length (8:1 to 15:1 L/D ratio)",
              "If not possible, reduce output rate further" ]
          explanation := "Short die lands do not allow enough stress relaxation before the melt exits." },
        { cause := "Sharp die entry angle"
          probability := .medium
          adjustments :=
            [ "Consider die with streamlined entry geometry",
              "Reduce output as a workaround" ]
          explanation := "Abrupt flow constrictions create extensional stress concentrations." } ]
    generalRecommendations :=
      [ "Start by increasing melt temperature - most common fix",
        "If increasing temp does not help, reduce throughput",
        "For persistent issues, consider processing aids (fluoropolymer PPA)" ] }

/-- Entry shark_skin of DEFECT_DATABASE in defects.ts. -/
def defectSharkSkin : DefectInfo :=
  { name := "Shark Skin"
    description := "Fine surface roughness with a regular pattern, typically appearing before full melt fracture. A milder form of surface defect related to die exit stress."
    causes :=
      [ { cause := "Die lip temperature too low"
          probability := .high
          adjustments :=
            [ "Increase die zone temperature by 5-15°F",
              "Check die heater band functionality",
              "Ensure uniform die lip temperature" ]
          explanation := "Cool die lips increase local viscosity and stress at the exit point." },
        { cause := "Output rate near critical limit"
          probability := .high
          adjustments :=
            [ "Reduce screw speed by 5-15%",
              "Monitor surface quality as you adjust" ]
          explanation := "Operating near the critical shear rate threshold causes intermittent surface defects." },
        { cause := "Resin grade not suited for application"
          probability := .medium
          adjustments :=
            [ "Consider resin with higher melt index (lower viscosity)",
              "Try resin designed for high-speed extrusion" ]
          explanation := "Some resin grades have lower critical shear stress thresholds." } ]
    generalRecommendations :=
      [ "Shark skin often precedes full melt fracture - address early",
        "Processing aids (0.02-0.1% fluoropolymer) very effective",
        "Die conditioning may help - run higher temp briefly" ] }

/-- Entry die_lines of DEFECT_DATABASE in defects.ts. -/
def defectDieLines : DefectInfo :=
  { name := "Die Lines"
    description := "Visible lines or streaks running in the machine direction, caused by flow irregularities or die surface issues."
    causes :=
      [ { cause := "Die lip damage or buildup"
          probability := .high
          adjustments :=
            [ "Stop and clean die lips with brass tools",
              "Inspect for nicks or scratches",
              "Polish die lips if damaged" ]
          explanation := "Any surface irregularity at the die exit will transfer to the film." },
        { cause := "Die temperature variation"
          probability := .high
          adjustments :=
            [ "Check all die zone heaters",
              "Verify thermocouple readings",
              "Balance die temperatures (within ±5°F)" ]
          explanation := "Temperature variations cause viscosity differences and flow irregularities." },
        { cause := "Contamination in melt"
          probability := .medium
          adjustments :=
            [ "Check hopper and feed throat for contamination",
              "Purge system thoroughly",
              "Verify material is clean and dry" ]
          explanation := "Gels or contaminants can hang up at die lips causing streaks." },
        { cause := "Screen pack issues"
          probability := .medium
          adjustments :=
            [ "Replace screen pack",
              "Check breaker plate for damage",
              "Use appropriate screen mesh for material" ]
          explanation := "Torn screens or blocked areas cause flow channeling." } ]
    generalRecommendations :=
      [ "Die lines are almost always a die condition issue",
        "Regular die lip cleaning prevents most problems",
        "Keep spare die lip inserts on hand" ] }

/-- Entry voids_bubbles of DEFECT_DATABASE in defects.ts. -/
def defectVoidsBubbles : DefectInfo :=
  { name := "Voids / Bubbles"
    description := "Trapped air or volatiles appearing as bubbles in the film wall, reducing strength and clarity."
    causes :=
      [ { cause := "Moisture in material"
          probability := .high
          adjustments :=
            [ "Dry material per manufacturer specs",
              "Check hopper dryer operation",
              "Verify dew point is adequate (-40°F typical)" ]
          explanation := "Moisture vaporizes at melt temperature, creating steam bubbles." },
        { cause := "Feed throat problems"
          probability := .high
          adjustments :=
            [ "Check for feed throat flooding",
              "Reduce feed throat cooling if frosting",
              "Verify consistent pellet feed" ]
          explanation := "Air can become entrapped in the feed section and carried forward." },
        { cause := "Melt temperature too high"
          probability := .medium
          adjustments :=
            [ "Reduce barrel temperatures by 10-20°F",
              "Reduce screw speed (lowers shear heating)" ]
          explanation := "Excessive temperature can cause material degradation and gas generation." },
        { cause := "Volatile additives"
          probability := .low
          adjustments :=
            [ "Check additive specifications",
              "Consider pre-compounded materials",
              "Reduce barrel temperatures if possible" ]
          explanation := "Some slip agents or other additives have low volatilization temperatures." } ]
    generalRecommendations :=
      [ "Always dry hygroscopic materials (EVOH, nylon, etc.)",
        "Maintain proper feed section conditions",
        "Voids reduce dart impact and tear strength significantly" ] }

/-- Entry warping of DEFECT_DATABASE in defects.ts. -/
def defectWarping : DefectInfo :=
  { name := "Warping"
    description := "Film does not lay flat, exhibits curl or distortion. Can be MD (machine direction) or TD (transverse direction) dominant."
    causes :=
      [ { cause := "Uneven cooling"
          probability := .high
          adjustments :=
            [ "Balance air ring air flow around circumference",
              "Check for blocked air ring ports",
              "Verify uniform frost line height" ]
          explanation := "Differential cooling rates cause uneven shrinkage and stress." },
        { cause := "MD/TD orientation imbalance"
          probability := .high
          adjustments :=
            [ "Adjust blow-up ratio (BUR)",
              "Modify frost line height",
              "Balance draw-down ratio with BUR" ]
          explanation := "Unbalanced molecular orientation causes directional shrinkage differences." },
        { cause := "Frost line too low or high"
          probability := .medium
          adjustments :=
            [ "Adjust air ring cooling capacity",
              "Modify output rate if needed",
              "Target frost line at 3-6x die diameter" ]
          explanation := "Frost line position affects crystallization and orientation development." } ]
    generalRecommendations :=
      [ "Measure actual BUR and compare to target",
        "Check film properties in MD and TD - balanced is ideal",
        "IBC (Internal Bubble Cooling) helps if available" ] }

/-- Entry inconsistent_wall_thickness of DEFECT_DATABASE in defects.ts. -/
def defectInconsistentWall : DefectInfo :=
  { name := "Inconsistent Wall Thickness"
    description := "Gauge variation around the circumference or along the length of the film, causing weak spots and winding problems."
    causes :=
      [ { cause := "Die gap not uniform"
          probability := .high
          adjustments :=
            [ "Measure and adjust die gap around circumference",
              "Use feeler gauges to verify uniformity",
              "Target ±0.001\" variation" ]
          explanation := "Die gap variations directly translate to thickness variations." },
        { cause := "Unbalanced air ring"
          probability := .high
          adjustments :=
            [ "Level air ring precisely",
              "Balance air flow at multiple points",
              "Check air ring lip gap uniformity" ]
          explanation := "Cooling variations cause differential drawdown around bubble." },
        { cause := "Temperature variations in die"
          probability := .medium
          adjustments :=
            [ "Check all die zone heaters",
              "Verify proper heater coverage",
              "Look for drafts affecting die" ]
          explanation := "Hot spots have lower viscosity and flow more material." },
        { cause := "Melt temperature instability"
          probability := .medium
          adjustments :=
            [ "Check barrel temperature stability",
              "Verify consistent screw speed",
              "Ensure steady material feed" ]
          explanation := "Melt temp fluctuations cause viscosity changes and output variations." } ]
    generalRecommendations :=
      [ "Gauge variation should be <±5% of nominal",
        "Automatic gauge control systems help significantly",
        "Oscillating haul-off can spread minor variations" ] }

/-- Entry surface_roughness of DEFECT_DATABASE in defects.ts. -/
def defectSurfaceRoughness : DefectInfo :=
  { name := "Surface Roughness"
    description := "General loss of surface gloss or smoothness, not related to melt fracture. May affect print quality and optical properties."
    causes :=
      [ { cause := "Melt temperature too low"
          probability := .high
          adjustments :=
            [ "Increase die temperature by 10-20°F",
              "Increase metering zone temperature",
              "Allow melt to homogenize longer" ]
          explanation := "Insufficient melt temperature prevents good surface finish development." },
        { cause := "Cooling too rapid"
          probability := .high
          adjustments :=
            [ "Reduce air ring velocity",
              "Raise frost line height",
              "Consider lower volume, higher velocity air" ]
          explanation := "Rapid quench freezes surface before it can smooth out." },
        { cause := "Incompatible additives"
          probability := .medium
          adjustments :=
            [ "Review additive package compatibility",
              "Check for slip/antiblock migration issues",
              "Consider different additive levels" ]
          explanation := "Some additives can bloom to surface and cause haze or roughness." } ]
    generalRecommendations :=
      [ "Surface quality is very sensitive to die temperature",
        "Corona treatment level affects apparent roughness",
        "Some roughness may be acceptable depending on application" ] }

/-- Entry gauge_bands of DEFECT_DATABASE in defects.ts. -/
def defectGaugeBands : DefectInfo :=
  { name := "Gauge Bands"
    description := "Periodic thickness variations appearing as visible bands or rings around the film circumference. Often creates roll hardness variations."
    causes :=
      [ { cause := "Air ring instability"
          probability := .high
          adjustments :=
            [ "Check air ring for vibration or flutter",
              "Verify blower output is steady",
              "Inspect air ring for damage or blockage" ]
          explanation := "Pulsating air flow causes cyclical cooling variations that create bands." },
        { cause := "Extruder output surging"
          probability := .high
          adjustments :=
            [ "Check screw speed consistency",
              "Verify feed consistency (no bridging)",
              "Inspect screw and barrel for wear" ]
          explanation := "Variations in melt delivery create periodic thickness changes." },
        { cause := "Die bolt pattern interference"
          probability := .medium
          adjustments :=
            [ "Check die bolt torque uniformity",
              "Verify die is not warped",
              "Consider thermal bolt adjustments" ]
          explanation := "Die bolts can create local flow restrictions that cause repeating patterns." },
        { cause := "Haul-off speed variation"
          probability := .medium
          adjustments :=
            [ "Check nip roll drive for consistency",
              "Verify encoder/tachometer operation",
              "Inspect rolls for damage or buildup" ]
          explanation := "Speed variations in takeoff create periodic gauge changes." } ]
    generalRecommendations :=
      [ "Gauge bands often have mechanical origin - check rotating equipment",
        "Oscillating haul-off can mask minor banding",
        "Frequency analysis can help identify the source" ] }

/-- Entry wrinkles of DEFECT_DATABASE in defects.ts. -/
def defectWrinkles : DefectInfo :=
  { name := "Wrinkles"
    description := "Film surface exhibits creases or folds, often appearing after collapsing frame or at winder. Affects roll quality and downstream converting."
    causes :=
      [ { cause := "Uneven film tension"
          probability := .high
          adjustments :=
            [ "Balance collapsing frame geometry",
              "Check guide roll alignment",
              "Verify uniform nip pressure across width" ]
          explanation := "Tension differences across the web cause material to bunch up." },
        { cause := "Gauge variation"
          probability := .high
          adjustments :=
            [ "Improve gauge uniformity (see gauge control)",
              "Balance air ring cooling",
              "Adjust die gap as needed" ]
          explanation := "Thick and thin areas travel at different effective speeds, creating wrinkles." },
        { cause := "Collapsing frame issues"
          probability := .medium
          adjustments :=
            [ "Verify frame angle is appropriate",
              "Check for worn or damaged guide boards",
              "Ensure bubble is centered in frame" ]
          explanation := "Poor bubble collapse geometry causes uneven layflat." },
        { cause := "Static electricity"
          probability := .low
          adjustments :=
            [ "Install static elimination equipment",
              "Increase ambient humidity if possible",
              "Ground all equipment properly" ]
          explanation := "Static can cause film layers to attract/repel unpredictably." } ]
    generalRecommendations :=
      [ "Wrinkles often originate at the collapsing frame",
        "Check all roller alignments in film path",
        "Proper winder tension control is essential" ] }

/-- Entry blocking of DEFECT_DATABASE in defects.ts. -/
def defectBlocking : DefectInfo :=
  { name := "Blocking"
    description := "Film layers stick together on the roll, making unwinding difficult or causing film damage. Common issue with certain additives or storage conditions."
    causes :=
      [ { cause := "Insufficient antiblock additive"
          probability := .high
          adjustments :=
            [ "Increase antiblock concentration (0.1-0.3% typical)",
              "Verify additive is properly dispersed",
              "Consider different antiblock type (silica vs talc)" ]
          explanation := "Antiblock creates micro-roughness that prevents intimate layer contact." },
        { cause := "Excessive winding tension"
          probability := .high
          adjustments :=
            [ "Reduce winder tension 10-20%",
              "Use taper tension profile (decreasing toward core)",
              "Avoid over-tight rolls" ]
          explanation := "High pressure between layers promotes blocking." },
        { cause := "Film too warm at winder"
          probability := .medium
          adjustments :=
            [ "Increase cooling before winder",
              "Reduce line speed if needed",
              "Add cooling rolls if available" ]
          explanation := "Warm film is softer and more prone to blocking." },
        { cause := "Storage conditions"
          probability := .medium
          adjustments :=
            [ "Store rolls at lower temperature",
              "Avoid stacking heavy rolls",
              "Allow rolls to age before shipping" ]
          explanation := "Heat and pressure during storage worsen blocking over time." } ]
    generalRecommendations :=
      [ "Blocking often develops during storage, not immediately",
        "Test blocking resistance after 24-48 hours",
        "Slip additives can worsen blocking - balance carefully" ] }

/-- Entry gels of DEFECT_DATABASE in defects.ts. -/
def defectGels : DefectInfo :=
  { name := "Gels"
    description := "Small, hard particles visible in the film, appearing as specs or fish-eyes. Can be crosslinked polymer, contamination, or undispersed additives."
    causes :=
      [ { cause := "Degraded material in system"
          probability := .high
          adjustments :=
            [ "Purge extruder thoroughly",
              "Check for dead spots in flow path",
              "Reduce residence time if possible" ]
          explanation := "Material that sits too long at temperature can crosslink and form gels." },
        { cause := "Contamination"
          probability := .high
          adjustments :=
            [ "Inspect raw material for contamination",
              "Clean hopper and feed system",
              "Check regrind quality and cleanliness" ]
          explanation := "Foreign material or degraded regrind creates visible defects." },
        { cause := "Screen pack breakthrough"
          probability := .medium
          adjustments :=
            [ "Replace screen pack",
              "Use finer mesh screens",
              "Verify breaker plate condition" ]
          explanation := "Damaged screens allow gels to pass through." },
        { cause := "Additive dispersion issues"
          probability := .medium
          adjustments :=
            [ "Use pre-compounded materials",
              "Verify masterbatch let-down ratio",
              "Increase mixing (screw design or speed)" ]
          explanation := "Undispersed additives can appear as gel-like defects." } ]
    generalRecommendations :=
      [ "Gels are often \"built up\" over time - regular purging helps",
        "Fine screen packs (150+ mesh) catch most gels",
        "Reduce barrel temperatures if degradation suspected" ] }

/-- Entry poor_clarity of DEFECT_DATABASE in defects.ts. -/
def defectPoorClarity : DefectInfo :=
  { name := "Poor Clarity"
    description := "Film appears hazy, cloudy, or has reduced transparency. Affects appearance and may indicate processing issues."
    causes :=
      [ { cause := "Excessive crystallinity"
          probability := .high
          adjustments :=
            [ "Increase cooling rate (raise frost line)",
              "Reduce melt temperature slightly",
              "Increase quench air velocity" ]
          explanation := "Large crystals scatter light and reduce clarity. Fast cooling creates smaller crystals." },
        { cause := "Surface roughness"
          probability := .high
          adjustments :=
            [ "Increase melt/die temperature",
              "Optimize frost line height",
              "Reduce cooling rate initially" ]
          explanation := "Rough surfaces scatter light and appear hazy." },
        { cause := "Additive bloom"
          probability := .medium
          adjustments :=
            [ "Reduce slip/antiblock levels",
              "Change additive types",
              "Adjust processing temperatures" ]
          explanation := "Additives migrating to surface create haze." },
        { cause := "Moisture in material"
          probability := .medium
          adjustments :=
            [ "Dry material properly",
              "Check hopper dryer operation",
              "Verify material storage conditions" ]
          explanation := "Water vapor creates micro-voids that scatter light." } ]
    generalRecommendations :=
      [ "Clarity is very material-dependent - LDPE typically best",
        "HDPE inherently more hazy due to higher crystallinity",
        "Balance clarity against other properties (stiffness, strength)" ] }

/-- Entry bubble_instability of DEFECT_DATABASE in defects.ts. -/
def defectBubbleInstability : DefectInfo :=
  { name := "Bubble Instability"
    description := "Bubble oscillates, breathes, or moves erratically. Can be helical (corkscrew), draw resonance, or random motion. Causes gauge variation and production issues."
    causes :=
      [ { cause := "Melt temperature variation"
          probability := .high
          adjustments :=
            [ "Stabilize barrel temperatures",
              "Check for screw/barrel wear",
              "Verify consistent material feed" ]
          explanation := "Temperature changes affect melt viscosity and bubble strength." },
        { cause := "Air ring imbalance"
          probability := .high
          adjustments :=
            [ "Level air ring precisely",
              "Balance air flow around circumference",
              "Check for blocked or damaged ports" ]
          explanation := "Uneven cooling causes asymmetric forces on the bubble." },
        { cause := "Inadequate melt strength"
          probability := .medium
          adjustments :=
            [ "Reduce melt temperature",
              "Decrease output rate",
              "Consider different resin grade" ]
          explanation := "Weak melt cannot support the bubble weight and internal pressure." },
        { cause := "Draft or air currents"
          probability := .medium
          adjustments :=
            [ "Shield bubble from drafts",
              "Install bubble cage if needed",
              "Check building HVAC systems" ]
          explanation := "External air movement disturbs the delicate bubble equilibrium." },
        { cause := "Improper BUR or frost line"
          probability := .medium
          adjustments :=
            [ "Adjust blow-up ratio",
              "Modify frost line height",
              "Balance cooling with output rate" ]
          explanation := "Wrong BUR or frost line position can cause natural instability modes." } ]
    generalRecommendations :=
      [ "Draw resonance often occurs at specific output rates - adjust slightly",
        "Helical instability usually air ring related",
        "IBC can help stabilize large or thin-gauge bubbles",
        "Consistent melt pressure is key to stable operation" ] }

/-- The static defect table DEFECT_DATABASE from defects.ts. -/
def DEFECT_DATABASE : DefectType → DefectInfo
  | .melt_fracture => defectMeltFracture
  | .shark_skin => defectSharkSkin
  | .die_lines => defectDieLines
  | .voids_bubbles => defectVoidsBubbles
  | .warping => defectWarping
  | .inconsistent_wall_thickness => defectInconsistentWall
  | .surface_roughness => defectSurfaceRoughness
  | .gauge_bands => defectGaugeBands
  | .wrinkles => defectWrinkles
  | .blocking => defectBlocking
  | .gels => defectGels
  | .poor_clarity => defectPoorClarity
  | .bubble_instability => defectBubbleInstability

/-- Table accessor getDefectInfo from defects.ts. -/
def getDefectInfo (d : DefectType) : DefectInfo := DEFECT_DATABASE d

/-- Table accessor getAllDefects from defects.ts (Object.keys order). -/
def getAllDefects : List DefectType :=
  [.melt_fracture, .shark_skin, .die_lines, .voids_bubbles, .warping,
   .inconsistent_wall_thickness, .surface_roughness, .gauge_bands, .wrinkles,
   .blocking, .gels, .poor_clarity, .bubble_instability]

/-- Table accessor getDefectDisplayName from defects.ts. -/
def getDefectDisplayName (d : DefectType) : String := (DEFECT_DATABASE d).name

/-- Current machine settings supplied to the diagnoser (types.ts DiagnoseInputs). -/
structure CurrentSettings where
  meltTemp : ℚ
  screwSpeed : ℚ
  lineSpeed : ℚ
  dieTemp : ℚ
deriving DecidableEq

/-- A diagnose request (types.ts DiagnoseInputs). -/
structure DiagnoseInputs where
  material : MaterialType
  currentSettings : CurrentSettings
  defect : DefectType
deriving DecidableEq

/-- A diagnose response (types.ts DiagnoseResult). -/
structure DiagnoseResult where
  defect : DefectType
  defectName : String
  description : String
  causes : List DefectCause
  generalRecommendations : List String
deriving DecidableEq

/-- Character list version of the check that pat occurs at the head of l
(the BEq scan underlying String.prototype behaviour). -/
def leadMatch : List Char → List Char → Bool
  | [], _ => true
  | _ :: _, [] => false
  | a :: as, b :: bs => a == b && leadMatch as bs

/-- Character list version of substring containment. -/
def subMatch : List Char → List Char → Bool
  | pat, [] => pat.isEmpty
  | pat, c :: rest => leadMatch pat (c :: rest) || subMatch pat rest

/-- JavaScript String.prototype.toLowerCase (per character lowering). -/
def jsToLower (s : String) : String := String.mk (s.data.map Char.toLower)

/-- JavaScript String.prototype.includes. -/
def jsIncludes (s pat : String) : Bool := subMatch pat.data s.data

/-- Boolean flags computed by analyzeCauses from the current settings
against the material profile (diagnose.ts lines 15 to 19). -/
structure SettingFlags where
  dieTempLow : Bool
  dieTempHigh : Bool
  meltTempLow : Bool
  meltTempHigh : Bool
  screwSpeedHigh : Bool
deriving DecidableEq

/-- The flag computation of analyzeCauses: each comparison of a current
setting against the material profile window. -/
def computeFlags (inputs : DiagnoseInputs) : SettingFlags :=
  let materialProps := getMaterial inputs.material
  let s := inputs.currentSettings
  { dieTempLow := decide (s.dieTemp < materialProps.barrelTemperatures.die.min)
    dieTempHigh := decide (s.dieTemp > materialProps.barrelTemperatures.die.max)
    meltTempLow := decide (s.meltTemp < materialProps.meltTempRange.min)
    meltTempHigh := decide (s.meltTemp > materialProps.meltTempRange.max)
    screwSpeedHigh := decide (s.screwSpeed > materialProps.screwSpeedRange.max * 0.9) }

/-- The body of the forEach loop in analyzeCauses (diagnose.ts lines 22 to 53):
substring matched escalation of one cause entry.  In the source this mutates
the CauseEntry object in place; here it returns the updated entry. -/
def adjustCause (fl : SettingFlags) (material : MaterialType) (c : DefectCause) : DefectCause :=
  let c1 :=
    if jsIncludes (jsToLower c.cause) "temperature" || jsIncludes (jsToLower c.cause) "temp" then
      let ca :=
        if jsIncludes (jsToLower c.cause) "low" && (fl.meltTempLow || fl.dieTempLow) then
          { c with probability := .high
                   explanation := c.explanation ++ " [Current settings confirm low temperature condition]" }
        else c
      if jsIncludes (jsToLower c.cause) "high" && (fl.meltTempHigh || fl.dieTempHigh) then
        { ca with probability := .high
                  explanation := ca.explanation ++ " [Current settings confirm high temperature condition]" }
      else ca
    else c
  let c2 :=
    if jsIncludes (jsToLower c1.cause) "output" || jsIncludes (jsToLower c1.cause) "rate" ||
        jsIncludes (jsToLower c1.cause) "speed" then
      if fl.screwSpeedHigh then
        { c1 with probability := .high
                  explanation := c1.explanation ++ " [Current screw speed is near upper limit]" }
      else c1
    else c1
  if jsIncludes (jsToLower c2.cause) "moisture" then
    if material = .EVOH then
      { c2 with probability := .high
                explanation := c2.explanation ++ " [EVOH is hygroscopic - moisture is common issue]" }
    else c2
  else c2

/-- The numeric order assigned to probability tiers by the sort comparator
in analyzeCauses (high 0, medium 1, low 2). -/
def probabilityOrder : Probability → ℕ
  | .high => 0
  | .medium => 1
  | .low => 2

/-- The sort comparator of analyzeCauses as a total preorder on cause
entries (the source comparator returns the difference of the two order
numbers).  JavaScript Array.prototype.sort is a stable sort by this key;
every stable sort computes the same list, so the stable insertionSort
below is a faithful model of it. -/
def causeLE (a b : DefectCause) : Prop :=
  probabilityOrder a.probability ≤ probabilityOrder b.probability

instance : DecidableRel causeLE := fun a b =>
  inferInstanceAs (Decidable (probabilityOrder a.probability ≤ probabilityOrder b.probability))

/-- Mutable table state of the diagnoser: what DEFECT_DATABASE currently
holds for every defect. -/
def DefectTable : Type := DefectType → DefectInfo

/-- The analyzeCauses function of diagnose.ts with the table state made
explicit.  The spread copy at line 9 copies the array but not the
CauseEntry objects inside, so the forEach updates are visible both in the
returned (sorted) list and in the table entry (in its original order). -/
def analyzeCausesS (tbl : DefectTable) (inputs : DiagnoseInputs) :
    List DefectCause × DefectTable :=
  let defectInfo := tbl inputs.defect
  let fl := computeFlags inputs
  let modified := defectInfo.causes.map (adjustCause fl inputs.material)
  let sorted := List.insertionSort causeLE modified
  let tbl' : DefectTable := fun d =>
    if d = inputs.defect then { defectInfo with causes := modified } else tbl d
  (sorted, tbl')

/-- getMaterialSpecificRecommendations from diagnose.ts. -/
def getMaterialSpecificRecommendations (inputs : DiagnoseInputs) : List String :=
  match inputs.material with
  | .HDPE =>
    [ "HDPE has a narrow processing window - small temperature adjustments (5-10°F) recommended",
      "Monitor melt pressure closely when adjusting parameters" ]
  | .LDPE =>
    [ "LDPE is forgiving - larger parameter adjustments are usually safe" ]
  | .LLDPE =>
    [ "LLDPE requires higher motor load - ensure extruder is not overloaded",
      "Consider blending with LDPE if processing is difficult" ]
  | .EVOH =>
    [ "CRITICAL: Verify material was properly dried before processing",
      "EVOH degradation is irreversible - avoid excessive temperature or residence time",
      "Consider purging with LDPE before and after EVOH runs" ]

/-- getProcessChecks from diagnose.ts. -/
def getProcessChecks (inputs : DiagnoseInputs) : List String :=
  match inputs.defect with
  | .melt_fracture =>
    [ "Verify die land length and condition",
      "Check if processing aid is being used and at correct level" ]
  | .shark_skin =>
    [ "Verify die land length and condition",
      "Check if processing aid is being used and at correct level" ]
  | .die_lines =>
    [ "Inspect die lips for damage with magnification",
      "Check for contamination in hopper and feed system" ]
  | .voids_bubbles =>
    [ "Verify hopper dryer is operating (if applicable)",
      "Check feed throat temperature and condition" ]
  | .warping =>
    [ "Measure frost line height around circumference",
      "Check air ring leveling and balance" ]
  | .inconsistent_wall_thickness =>
    [ "Measure die gap at 8 points minimum",
      "Verify all die zone heaters are functioning" ]
  | .surface_roughness =>
    [ "Check corona treater level (if applicable)",
      "Inspect winder tension and roll quality" ]
  | _ => []

/-- The diagnoseDefect function of diagnose.ts with the table state made
explicit: it returns the DiagnoseResult together with the table as left
behind by analyzeCauses. -/
def diagnoseDefectS (tbl : DefectTable) (inputs : DiagnoseInputs) :
    DiagnoseResult × DefectTable :=
  let defectInfo := tbl inputs.defect
  let p := analyzeCausesS tbl inputs
  ( { defect := inputs.defect
      defectName := defectInfo.name
      description := defectInfo.description
      causes := p.1
      generalRecommendations :=
        defectInfo.generalRecommendations ++
        getMaterialSpecificRecommendations inputs ++
        getProcessChecks inputs },
    p.2 )

/-- An optimize request (types.ts OptimizeInputs). -/
structure OptimizeInputs where
  material : MaterialType
  targetOD : ℚ
  targetGauge : ℚ
  productionRate : ℚ
deriving DecidableEq

/-- Rational model of the double constant Math.PI (only its positivity
matters to the theorems below). -/
def jsPI : ℚ := 3.141592653589793

/-- JavaScript Math.round: floor of x + 1/2 for every real x. -/
def jroundInt (q : ℚ) : ℤ := ⌊q + 1 / 2⌋

/-- Math.round kept inside the rational number domain. -/
def jround (q : ℚ) : ℚ := (jroundInt q : ℚ)

/-- Left pad a digit string with zeros up to the requested width. -/
def zeroPad (s : String) (k : ℕ) : String :=
  String.mk (List.replicate (k - s.length) '0') ++ s

/-- Rational model of Number.prototype.toFixed (round half up at the
requested number of decimal digits; only used to build note strings). -/
def toFixedQ (digits : ℕ) (q : ℚ) : String :=
  let scaled : ℤ := jroundInt (q * (10 : ℚ) ^ digits)
  let sign := if scaled < 0 then "-" else ""
  let n := scaled.natAbs
  if digits = 0 then sign ++ toString n
  else sign ++ toString (n / 10 ^ digits) ++ "." ++ zeroPad (toString (n % 10 ^ digits)) digits

/-- Decimal rendering of the whole rationals that reach template strings
(every such value in the engine is a rounded integer). -/
def numStr (q : ℚ) : String :=
  if q.den = 1 then toString q.num else toString q

/-- calculateLayflat from optimizer.ts. -/
def calculateLayflat (od : ℚ) : ℚ := jsPI * od / 2

/-- getMaterialDensity from optimizer.ts (lb per cubic inch). -/
def getMaterialDensity : MaterialType → ℚ
  | .HDPE => 0.035
  | .LDPE => 0.033
  | .LLDPE => 0.034
  | .EVOH => 0.042

/-- getDieSize from optimizer.ts: step function of the target OD. -/
def getDieSize (targetOD : ℚ) : ℚ :=
  if targetOD ≤ 10 then 4
  else if targetOD ≤ 20 then 6
  else if targetOD ≤ 35 then 8
  else if targetOD ≤ 50 then 10
  else 12

/-- calculateBUR from optimizer.ts. -/
def calculateBUR (targetOD : ℚ) (material : MaterialType) : ℚ :=
  let materialProps := getMaterial material
  let dieSize := getDieSize targetOD
  let calculatedBUR := targetOD / dieSize
  max materialProps.blowUpRatioRange.min
    (min calculatedBUR materialProps.blowUpRatioRange.max)

/-- calculateScrewSpeed from optimizer.ts. -/
def calculateScrewSpeed (productionRate : ℚ) (material : MaterialType) : ZoneRange :=
  let materialProps := getMaterial material
  let specificOutput : ℚ := 5
  let baseRPM := productionRate / specificOutput
  let minRPM := max materialProps.screwSpeedRange.min (baseRPM * 0.8)
  let maxRPM := min materialProps.screwSpeedRange.max (baseRPM * 1.2)
  let recommendedRPM :=
    min materialProps.screwSpeedRange.max (max materialProps.screwSpeedRange.min baseRPM)
  { min := jround minRPM, max := jround maxRPM, recommended := jround recommendedRPM }

/-- calculateLineSpeed from optimizer.ts. -/
def calculateLineSpeed (productionRate od gauge : ℚ) (material : MaterialType) : ZoneRange :=
  let density := getMaterialDensity material
  let filmArea := jsPI * od * (gauge / 1000)
  let volumePerFoot := filmArea * 12
  let massPerFoot := volumePerFoot * density
  let targetLineSpeed := productionRate / massPerFoot / 60
  { min := jround (targetLineSpeed * 0.85)
    max := jround (targetLineSpeed * 1.15)
    recommended := jround targetLineSpeed }

/-- The melt pressure output record of the optimizer. -/
structure PressureOut where
  min : ℚ
  max : ℚ
  target : ℚ
deriving DecidableEq

/-- calculateMeltPressure from optimizer.ts.  Math.sqrt is modelled by the
computable Rat.sqrt; the range facts proved below hold for any value it
returns because the target is clamped. -/
def calculateMeltPressure (productionRate : ℚ) (material : MaterialType) : PressureOut :=
  let materialProps := getMaterial material
  let midOutput : ℚ := 200
  let midPressure :=
    (materialProps.meltPressureRange.min + materialProps.meltPressureRange.max) / 2
  let scaleFactor := Rat.sqrt (productionRate / midOutput)
  let targetPressure := midPressure * scaleFactor
  let clampedTarget :=
    max materialProps.meltPressureRange.min
      (min targetPressure materialProps.meltPressureRange.max)
  { min := materialProps.meltPressureRange.min
    max := materialProps.meltPressureRange.max
    target := jround clampedTarget }

/-- The air ring output record of the optimizer. -/
structure AirRingOut where
  lipGap : String
  airVelocity : String
  coolingCapacity : String
deriving DecidableEq

/-- calculateAirRing from optimizer.ts. -/
def calculateAirRing (productionRate : ℚ) (material : MaterialType) (od : ℚ) : AirRingOut :=
  let lipGap :=
    if productionRate < 150 then "0.030-0.040\""
    else if productionRate < 300 then "0.040-0.060\""
    else "0.060-0.080\""
  let airVelocity :=
    if material = .HDPE then "High (fast crystallization)"
    else if material = .EVOH then "Moderate (prevent rapid quench)"
    else "Medium-High"
  let coolingLoad := productionRate * od
  let coolingCapacity :=
    if coolingLoad < 2000 then "Standard single-lip"
    else if coolingLoad < 5000 then "Dual-lip recommended"
    else "Dual-lip with IBC recommended"
  { lipGap := lipGap, airVelocity := airVelocity, coolingCapacity := coolingCapacity }

/-- The frost line output record of the optimizer. -/
structure FrostLineOut where
  heightRange : String
  heightInches : NumRange
  notes : String
deriving DecidableEq

/-- calculateFrostLine from optimizer.ts. -/
def calculateFrostLine (targetOD : ℚ) (material : MaterialType) (productionRate : ℚ) : FrostLineOut :=
  let materialProps := getMaterial material
  let dieSize := getDieSize targetOD
  let baseFactor := materialProps.frostLineHeightFactor
  let rateAdjustment : ℚ :=
    if productionRate > 300 then 1.1 else if productionRate < 100 then 0.9 else 1.0
  let minHeight := jround (dieSize * 3 * baseFactor * rateAdjustment)
  let maxHeight := jround (dieSize * 6 * baseFactor * rateAdjustment)
  let optimalHeight := jround (dieSize * 4.5 * baseFactor * rateAdjustment)
  let notes :=
    if material = .HDPE then
      "HDPE requires higher frost line for proper crystallinity development"
    else if material = .EVOH then
      "EVOH sensitive to frost line - maintain consistent height for barrier properties"
    else if material = .LLDPE then
      "LLDPE tolerates wider frost line range than HDPE"
    else "LDPE very forgiving - frost line height less critical"
  { heightRange :=
      numStr minHeight ++ "-" ++ numStr maxHeight ++ "\" (optimal: ~" ++ numStr optimalHeight ++ "\")"
    heightInches := { min := minHeight, max := maxHeight }
    notes := notes }

/-- The nip roller output record of the optimizer. -/
structure NipRollersOut where
  speed : String
  pressure : String
  temperature : String
deriving DecidableEq

/-- calculateNipRollers from optimizer.ts. -/
def calculateNipRollers (lineSpeed : ZoneRange) (gauge : ℚ) (material : MaterialType) : NipRollersOut :=
  let speedNote :=
    "Match line speed (" ++ numStr lineSpeed.recommended ++ " ft/min) with 1-3% draw"
  let pressure :=
    if gauge < 1 then "Light (15-25 PSI) - thin gauge sensitive to crushing"
    else if gauge < 3 then "Medium (25-40 PSI) - standard operating range"
    else "Medium-High (35-50 PSI) - heavier gauge needs more nip force"
  let temperature :=
    if material = .HDPE then "Ambient to 80°F - avoid heating crystalline film"
    else if material = .EVOH then "Ambient (60-75°F) - prevent moisture pickup"
    else "Ambient to 100°F - slight warming can improve layflat"
  { speed := speedNote, pressure := pressure, temperature := temperature }

/-- The internal bubble cooling output record of the optimizer. -/
structure IbcOut where
  recommended : Bool
  airFlow : String
  notes : String
deriving DecidableEq

/-- calculateIBC from optimizer.ts. -/
def calculateIBC (productionRate targetOD gauge : ℚ) (material : MaterialType) : IbcOut :=
  let coolingLoad := productionRate * targetOD
  let isHeavyGauge := decide (gauge > 3)
  let isHighOutput := decide (productionRate > 250)
  let recommended := decide (coolingLoad > 4000) || (isHeavyGauge && isHighOutput)
  if !recommended then
    { recommended := recommended
      airFlow := "Not required for this application"
      notes := "External air ring cooling sufficient for current parameters" }
  else if material = .HDPE then
    { recommended := recommended
      airFlow := "High flow rate (match or exceed external cooling)"
      notes := "HDPE benefits significantly from IBC - improves output capacity 20-40%" }
  else if material = .EVOH then
    { recommended := recommended
      airFlow := "Moderate flow - balanced with external cooling"
      notes := "IBC helps maintain uniform cooling for consistent barrier properties" }
  else
    { recommended := recommended
      airFlow := "Medium-High flow rate"
      notes := "IBC enables higher output rates and improved gauge uniformity" }

/-- The gauge control output record of the optimizer. -/
structure GaugeControlOut where
  targetVariation : String
  dieGapSetting : String
  recommendations : List String
deriving DecidableEq

/-- calculateGaugeControl from optimizer.ts. -/
def calculateGaugeControl (gauge targetOD : ℚ) (material : MaterialType) : GaugeControlOut :=
  let dieSize := getDieSize targetOD
  let targetVariation :=
    if gauge < 1 then "±5% (tight control required for thin gauge)"
    else if gauge < 3 then "±5-7% (standard tolerance)"
    else "±7-10% (relaxed tolerance acceptable)"
  let estimatedDieGap := gauge * 15
  let dieGapSetting :=
    "~" ++ toFixedQ 0 estimatedDieGap ++ " mils (" ++ toFixedQ 3 (estimatedDieGap / 1000) ++ "\")"
  let recommendations :=
    [ "Measure gauge at minimum 8 points around circumference",
      "Use automatic gauge control (AGC) if available",
      "Verify die gap uniformity (target ±0.001\" on " ++ numStr dieSize ++ "\" die)" ] ++
    (if material = .HDPE then ["HDPE gauge sensitive to cooling - balance air ring first"] else []) ++
    (if gauge < 1 then ["Thin gauge: small die adjustments have large effect"] else [])
  { targetVariation := targetVariation
    dieGapSetting := dieGapSetting
    recommendations := recommendations }

/-- The bubble stability output record of the optimizer (rating is one of
the literals stable, moderate, challenging). -/
structure BubbleStabilityOut where
  rating : String
  factors : List String
  recommendations : List String
deriving DecidableEq

/-- assessBubbleStability from optimizer.ts: the running score together
with the factor and recommendation lists accumulated in evaluation order. -/
def assessBubbleStability (inputs : OptimizeInputs) (bur : ℚ) : BubbleStabilityOut :=
  let s0 : ℚ × List String × List String := (100, [], [])
  let s1 :=
    if bur > 3.5 then
      (s0.1 - 20, s0.2.1 ++ ["High BUR increases bubble sensitivity"],
        s0.2.2 ++ ["Ensure uniform air ring cooling at high BUR"])
    else if bur < 2.0 then
      (s0.1 - 10, s0.2.1 ++ ["Low BUR may cause MD/TD imbalance"], s0.2.2)
    else s0
  let s2 :=
    if inputs.targetGauge < 0.75 then
      (s1.1 - 25, s1.2.1 ++ ["Very thin gauge highly sensitive to disturbances"],
        s1.2.2 ++ ["Minimize drafts and air currents around tower",
                   "Consider bubble cage or guide system"])
    else if inputs.targetGauge < 1.5 then
      (s1.1 - 10, s1.2.1 ++ ["Thin gauge moderately sensitive"], s1.2.2)
    else s1
  let s3 :=
    if inputs.productionRate > 400 then
      (s2.1 - 15, s2.2.1 ++ ["High output rate can challenge stability"],
        s2.2.2 ++ ["Verify adequate cooling capacity"])
    else s2
  let s4 :=
    if inputs.material = .LLDPE then
      (s3.1 - 5, s3.2.1 ++ ["LLDPE has higher melt strength - generally stable"], s3.2.2)
    else if inputs.material = .LDPE then
      (s3.1, s3.2.1 ++ ["LDPE excellent bubble stability"], s3.2.2)
    else if inputs.material = .HDPE then
      (s3.1 - 10, s3.2.1 ++ ["HDPE lower melt strength - monitor closely"],
        s3.2.2 ++ ["Maintain consistent melt temperature"])
    else
      (s3.1 - 15, s3.2.1 ++ ["EVOH narrow processing window affects stability"],
        s3.2.2 ++ ["Precise temperature control essential"])
  let s5 :=
    if inputs.targetOD > 40 then
      (s4.1 - 10, s4.2.1 ++ ["Large bubble diameter more prone to oscillation"],
        s4.2.2 ++ ["Consider IBC for improved stability"])
    else s4
  let s6 := (s5.1, s5.2.1,
    s5.2.2 ++ ["Maintain steady extruder output (consistent melt pressure)"])
  let rating :=
    if s6.1 ≥ 75 then "stable" else if s6.1 ≥ 50 then "moderate" else "challenging"
  { rating := rating, factors := s6.2.1, recommendations := s6.2.2 }

/-- The running score of assessConfidence in optimizer.ts: 100 minus the
deduction of each threshold check, in source order. -/
def confidenceScore (inputs : OptimizeInputs) : ℚ :=
  100 - (if inputs.productionRate < 50 then 20 else 0)
      - (if inputs.productionRate > 500 then 15 else 0)
      - (if inputs.targetGauge < 0.5 then 25 else 0)
      - (if inputs.targetGauge > 10 then 15 else 0)
      - (if inputs.targetOD < 5 then 10 else 0)
      - (if inputs.targetOD > 60 then 10 else 0)
      - (if inputs.material = .EVOH then 10 else 0)

/-- The reason strings assessConfidence pushes alongside each deduction. -/
def confidenceReasons (inputs : OptimizeInputs) : List String :=
  (if inputs.productionRate < 50 then
    ["Low production rate may require special considerations"] else []) ++
  (if inputs.productionRate > 500 then
    ["High production rate - verify equipment capacity"] else []) ++
  (if inputs.targetGauge < 0.5 then
    ["Very thin gauge - process stability may be challenging"] else []) ++
  (if inputs.targetGauge > 10 then
    ["Heavy gauge - monitor cooling capacity"] else []) ++
  (if inputs.targetOD < 5 then
    ["Small diameter - BUR may be limited"] else []) ++
  (if inputs.targetOD > 60 then
    ["Large diameter - ensure adequate die size"] else []) ++
  (if inputs.material = .EVOH then
    ["EVOH requires careful moisture control"] else [])

/-- assessConfidence from optimizer.ts: the level thresholds applied to
the running score, paired with the collected reasons. -/
def assessConfidence (inputs : OptimizeInputs) : String × List String :=
  let score := confidenceScore inputs
  let level := if score ≥ 80 then "high" else if score ≥ 60 then "medium" else "low"
  (level, confidenceReasons inputs)

/-- identifyCriticalParameters from optimizer.ts. -/
def identifyCriticalParameters (inputs : OptimizeInputs) : List String :=
  (if inputs.material = .EVOH then
    ["Material drying (target <0.05% moisture)", "Die temperature uniformity (±5°F)"] else []) ++
  (if inputs.material = .HDPE then
    ["Melt temperature control (melt fracture prevention)", "Cooling rate (crystallinity control)"] else []) ++
  (if inputs.targetGauge < 1 then
    ["Bubble stability (thin gauge sensitivity)", "Line speed consistency"] else []) ++
  (if inputs.productionRate > 300 then
    ["Melt pressure monitoring", "Adequate cooling capacity"] else []) ++
  ["Die gap uniformity for gauge control", "Frost line height consistency"]

/-- The barrel temperature block of the optimizer output. -/
structure BarrelTempsOut where
  feed : ℚ
  compression : ℚ
  metering : ℚ
  die : ℚ
deriving DecidableEq

/-- The full optimizer output record (types.ts RecommendedSettings). -/
structure RecommendedSettings where
  barrelTemps : BarrelTempsOut
  screwSpeed : ZoneRange
  lineSpeed : ZoneRange
  meltPressure : PressureOut
  airRing : AirRingOut
  blowUpRatio : ℚ
  frostLine : FrostLineOut
  nipRollers : NipRollersOut
  ibc : IbcOut
  gaugeControl : GaugeControlOut
  bubbleStability : BubbleStabilityOut
  confidence : String
  notes : List String
  criticalParameters : List String
deriving DecidableEq

/-- optimizeParameters from optimizer.ts, the full pipeline. -/
def optimizeParameters (inputs : OptimizeInputs) : RecommendedSettings :=
  let materialProps := getMaterial inputs.material
  let tempOffset : ℚ := if inputs.productionRate > 300 then 10 else 0
  let barrelTemps : BarrelTempsOut :=
    { feed := materialProps.barrelTemperatures.feed.recommended
      compression := materialProps.barrelTemperatures.compression.recommended + tempOffset
      metering := materialProps.barrelTemperatures.metering.recommended + tempOffset
      die := materialProps.barrelTemperatures.die.recommended + tempOffset }
  let screwSpeed := calculateScrewSpeed inputs.productionRate inputs.material
  let lineSpeed :=
    calculateLineSpeed inputs.productionRate inputs.targetOD inputs.targetGauge inputs.material
  let meltPressure := calculateMeltPressure inputs.productionRate inputs.material
  let airRing := calculateAirRing inputs.productionRate inputs.material inputs.targetOD
  let blowUpRatio := calculateBUR inputs.targetOD inputs.material
  let frostLine := calculateFrostLine inputs.targetOD inputs.material inputs.productionRate
  let nipRollers := calculateNipRollers lineSpeed inputs.targetGauge inputs.material
  let ibc :=
    calculateIBC inputs.productionRate inputs.targetOD inputs.targetGauge inputs.material
  let gaugeControl := calculateGaugeControl inputs.targetGauge inputs.targetOD inputs.material
  let bubbleStability := assessBubbleStability inputs blowUpRatio
  let confidenceResult := assessConfidence inputs
  let criticalParams := identifyCriticalParameters inputs
  let layflat := calculateLayflat inputs.targetOD
  let layflatNote :=
    "Target layflat width: " ++ toFixedQ 2 layflat ++ "\" (" ++
      toFixedQ 2 (layflat * 2) ++ "\" full width)"
  let notes := layflatNote :: (materialProps.notes ++ confidenceResult.2)
  { barrelTemps := barrelTemps
    screwSpeed := screwSpeed
    lineSpeed := lineSpeed
    meltPressure := meltPressure
    airRing := airRing
    blowUpRatio := blowUpRatio
    frostLine := frostLine
    nipRollers := nipRollers
    ibc := ibc
    gaugeControl := gaugeControl
    bubbleStability := bubbleStability
    confidence := confidenceResult.1
    notes := notes
    criticalParameters := criticalParams }

/-- String keys recognised by the MATERIALS record at runtime. -/
def MATERIAL_KEYS : List String := ["HDPE", "LDPE", "LLDPE", "EVOH"]

/-- Which enumeration member a runtime string key denotes, if any. -/
def materialForKey (s : String) : Option MaterialType :=
  if s = "HDPE" then some .HDPE
  else if s = "LDPE" then some .LDPE
  else if s = "LLDPE" then some .LLDPE
  else if s = "EVOH" then some .EVOH
  else none

/-- Runtime model of the body of getMaterial, the record access
MATERIALS[type].  A JavaScript property read on a plain object completes
normally for every key: it yields the stored profile for a known key and
the value undefined (modelled by none) for an absent key.  It never
throws, so the result is always Except.ok. -/
def getMaterialJS (s : String) : Except String (Option MaterialProperties) :=
  Except.ok ((materialForKey s).map getMaterial)

/-- String keys recognised by the DEFECT_DATABASE record at runtime. -/
def DEFECT_KEYS : List String :=
  ["melt_fracture", "shark_skin", "die_lines", "voids_bubbles", "warping",
   "inconsistent_wall_thickness", "surface_roughness", "gauge_bands", "wrinkles",
   "blocking", "gels", "poor_clarity", "bubble_instability"]

/-- Which defect enumeration member a runtime string key denotes, if any. -/
def defectForKey (s : String) : Option DefectType :=
  if s = "melt_fracture" then some .melt_fracture
  else if s = "shark_skin" then some .shark_skin
  else if s = "die_lines" then some .die_lines
  else if s = "voids_bubbles" then some .voids_bubbles
  else if s = "warping" then some .warping
  else if s = "inconsistent_wall_thickness" then some .inconsistent_wall_thickness
  else if s = "surface_roughness" then some .surface_roughness
  else if s = "gauge_bands" then some .gauge_bands
  else if s = "wrinkles" then some .wrinkles
  else if s = "blocking" then some .blocking
  else if s = "gels" then some .gels
  else if s = "poor_clarity" then some .poor_clarity
  else if s = "bubble_instability" then some .bubble_instability
  else none

/-- Runtime model of the body of getDefectInfo, the record access
DEFECT_DATABASE[defect]; same normal-completion semantics as
getMaterialJS. -/
def getDefectInfoJS (s : String) : Except String (Option DefectInfo) :=
  Except.ok ((defectForKey s).map DEFECT_DATABASE)

/-- The step function of getDieSize, written from the words of the
specification: thresholds 10, 20, 35, 50 selecting die sizes 4, 6, 8, 10
and otherwise 12. -/
def dieSizeSpec (od : ℚ) : ℚ :=
  if od ≤ 10 then 4
  else if od ≤ 20 then 6
  else if od ≤ 35 then 8
  else if od ≤ 50 then 10
  else 12

/-- The diagnose request used to exercise the diagnoser twice in a row:
EVOH with in-window settings, observing voids_bubbles. -/
def repeatRequest : DiagnoseInputs :=
  { material := .EVOH
    currentSettings := { meltTemp := 400, screwSpeed := 50, lineSpeed := 300, dieTemp := 415 }
    defect := .voids_bubbles }

/-- Rounding is monotone: Math.round of a smaller real is no larger. -/
theorem jround_mono {q r : ℚ} (h : q ≤ r) : jround q ≤ jround r := by
  unfold jround jroundInt
  exact_mod_cast Int.floor_le_floor (add_le_add_right h _)

/-- An integer lower bound below a value is also below its rounding. -/
theorem intCast_le_jround {a : ℤ} {q : ℚ} (h : (a : ℚ) ≤ q) : (a : ℚ) ≤ jround q := by
  unfold jround jroundInt
  exact_mod_cast Int.le_floor.mpr (le_trans h (by linarith))

/-- An integer upper bound above a value is also above its rounding. -/
theorem jround_le_intCast {a : ℤ} {q : ℚ} (h : q ≤ (a : ℚ)) : jround q ≤ (a : ℚ) := by
  unfold jround jroundInt
  have : (⌊q + 1 / 2⌋ : ℤ) ≤ a := by
    rw [Int.floor_le_iff]
    linarith
  exact_mod_cast this

/-- Each material's blow-up ratio window is nonempty. -/
theorem bur_min_le_max (m : MaterialType) :
    (getMaterial m).blowUpRatioRange.min ≤ (getMaterial m).blowUpRatioRange.max := by
  cases m <;> norm_num [getMaterial, MATERIALS]

/-- Each material's screw speed window is nonempty. -/
theorem screw_min_le_max (m : MaterialType) :
    (getMaterial m).screwSpeedRange.min ≤ (getMaterial m).screwSpeedRange.max := by
  cases m <;> norm_num [getMaterial, MATERIALS]

/-- Each material's density constant is positive. -/
theorem density_pos (m : MaterialType) : 0 < getMaterialDensity m := by
  cases m <;> norm_num [getMaterialDensity]

/-- The rational model of Math.PI is positive. -/
theorem jsPI_pos : 0 < jsPI := by norm_num [jsPI]

/-- C9: for every real target OD the die size selection returns one of 4,
6, 8, 10, 12, hence a strictly positive, nonzero value; so the division
targetOD / dieSize inside calculateBUR never divides by zero, whatever
the OD (zero and negative included). -/
theorem dieSize_positive_enum (od : ℚ) :
    (getDieSize od = 4 ∨ getDieSize od = 6 ∨ getDieSize od = 8 ∨
      getDieSize od = 10 ∨ getDieSize od = 12) ∧
    0 < getDieSize od ∧ getDieSize od ≠ 0 := by
  unfold getDieSize
  split_ifs <;> norm_num

/-- C5: for every material and every target OD (and any gauge and rate),
the blow-up ratio reported by optimizeParameters equals targetOD divided
by the spec's step-function die size, clamped into the material's
blowUpRatioRange, and in particular always lies inside that range. -/
theorem bur_eq_clamped_spec (m : MaterialType) (od g r : ℚ) :
    (optimizeParameters ⟨m, od, g, r⟩).blowUpRatio =
      max (getMaterial m).blowUpRatioRange.min
        (min (od / dieSizeSpec od) (getMaterial m).blowUpRatioRange.max) ∧
    (getMaterial m).blowUpRatioRange.min ≤ (optimizeParameters ⟨m, od, g, r⟩).blowUpRatio ∧
    (optimizeParameters ⟨m, od, g, r⟩).blowUpRatio ≤ (getMaterial m).blowUpRatioRange.max := by
  have hspec : dieSizeSpec od = getDieSize od := rfl
  have hval : (optimizeParameters ⟨m, od, g, r⟩).blowUpRatio =
      max (getMaterial m).blowUpRatioRange.min
        (min (od / getDieSize od) (getMaterial m).blowUpRatioRange.max) := rfl
  refine ⟨by rw [hval, hspec], ?_, ?_⟩
  · rw [hval]
    exact le_max_left _ _
  · rw [hval]
    exact max_le (bur_min_le_max m) (min_le_right _ _)

section EvalArith

attribute [local semireducible] Rat.add Rat.mul Rat.sub Rat.inv Rat.ofScientific

/-- C3 counterexample: at the positive input material HDPE, targetOD 20,
targetGauge 1.5, productionRate 50, the screw speed range of the
optimizer output is min 30, max 12, recommended 30, so recommended
exceeds max and the claimed min ≤ recommended ≤ max ordering fails. -/
theorem screwSpeed_range_violation_at_positive_input :
    (optimizeParameters ⟨.HDPE, 20, 1.5, 50⟩).screwSpeed =
      { min := 30, max := 12, recommended := 30 } ∧
    ¬ ((optimizeParameters ⟨.HDPE, 20, 1.5, 50⟩).screwSpeed.recommended ≤
        (optimizeParameters ⟨.HDPE, 20, 1.5, 50⟩).screwSpeed.max) := by
  constructor <;> decide

end EvalArith

/-- C3 (amended): for positive inputs, the lineSpeed and meltPressure
ranges of the optimizer output always satisfy min ≤ recommended ≤ max
(target for melt pressure); the screwSpeed range satisfies it whenever
the rate-derived band overlaps the material screw speed window, that is
material.min ≤ (rate/5)·1.2 and (rate/5)·0.8 ≤ material.max. -/
theorem output_ranges_ordered (m : MaterialType) (od g r : ℚ)
    (hod : 0 < od) (hg : 0 < g) (hr : 0 < r)
    (hlo : (getMaterial m).screwSpeedRange.min ≤ r / 5 * 1.2)
    (hhi : r / 5 * 0.8 ≤ (getMaterial m).screwSpeedRange.max) :
    ((optimizeParameters ⟨m, od, g, r⟩).screwSpeed.min ≤
        (optimizeParameters ⟨m, od, g, r⟩).screwSpeed.recommended ∧
      (optimizeParameters ⟨m, od, g, r⟩).screwSpeed.recommended ≤
        (optimizeParameters ⟨m, od, g, r⟩).screwSpeed.max) ∧
    ((optimizeParameters ⟨m, od, g, r⟩).lineSpeed.min ≤
        (optimizeParameters ⟨m, od, g, r⟩).lineSpeed.recommended ∧
      (optimizeParameters ⟨m, od, g, r⟩).lineSpeed.recommended ≤
        (optimizeParameters ⟨m, od, g, r⟩).lineSpeed.max) ∧
    ((optimizeParameters ⟨m, od, g, r⟩).meltPressure.min ≤
        (optimizeParameters ⟨m, od, g, r⟩).meltPressure.target ∧
      (optimizeParameters ⟨m, od, g, r⟩).meltPressure.target ≤
        (optimizeParameters ⟨m, od, g, r⟩).meltPressure.max) := by
  have hs : (optimizeParameters ⟨m, od, g, r⟩).screwSpeed =
      { min := jround (max (getMaterial m).screwSpeedRange.min (r / 5 * 0.8))
        max := jround (min (getMaterial m).screwSpeedRange.max (r / 5 * 1.2))
        recommended := jround (min (getMaterial m).screwSpeedRange.max
          (max (getMaterial m).screwSpeedRange.min (r / 5))) } := rfl
  have hb : (0:ℚ) ≤ r / 5 := by positivity
  have h08 : r / 5 * 0.8 ≤ r / 5 := by nlinarith
  have h12 : r / 5 ≤ r / 5 * 1.2 := by nlinarith
  have hmM := screw_min_le_max m
  refine ⟨⟨?_, ?_⟩, ?_, ?_⟩
  · rw [hs]
    exact jround_mono (le_min (max_le hmM hhi) (max_le_max le_rfl h08))
  · rw [hs]
    exact jround_mono (min_le_min le_rfl (max_le hlo h12))
  · have ht : (0:ℚ) ≤ r / (jsPI * od * (g / 1000) * 12 * getMaterialDensity m) / 60 := by
      have hpi := jsPI_pos
      have hd := density_pos m
      positivity
    have hl : (optimizeParameters ⟨m, od, g, r⟩).lineSpeed =
        { min := jround (r / (jsPI * od * (g / 1000) * 12 * getMaterialDensity m) / 60 * 0.85)
          max := jround (r / (jsPI * od * (g / 1000) * 12 * getMaterialDensity m) / 60 * 1.15)
          recommended := jround (r / (jsPI * od * (g / 1000) * 12 * getMaterialDensity m) / 60) } := rfl
    rw [hl]
    constructor
    · exact jround_mono (by nlinarith)
    · exact jround_mono (by nlinarith)
  · have hp : (optimizeParameters ⟨m, od, g, r⟩).meltPressure =
        { min := (getMaterial m).meltPressureRange.min
          max := (getMaterial m).meltPressureRange.max
          target := jround (max (getMaterial m).meltPressureRange.min
            (min (((getMaterial m).meltPressureRange.min +
                (getMaterial m).meltPressureRange.max) / 2 * Rat.sqrt (r / 200))
              (getMaterial m).meltPressureRange.max)) } := rfl
    rw [hp]
    have key : ∀ (a b : ℤ) (x : ℚ), (a:ℚ) ≤ (b:ℚ) →
        (a:ℚ) ≤ jround (max (a:ℚ) (min x (b:ℚ))) ∧ jround (max (a:ℚ) (min x (b:ℚ))) ≤ (b:ℚ) := by
      intro a b x hab
      constructor
      · exact intCast_le_jround (le_max_left _ _)
      · exact jround_le_intCast (max_le hab (min_le_right _ _))
    cases m
    case HDPE =>
      have h2 := key 2500 5500 (((2500:ℚ) + 5500) / 2 * Rat.sqrt (r / 200)) (by norm_num)
      push_cast at h2
      simpa [getMaterial, MATERIALS] using h2
    case LDPE =>
      have h2 := key 2000 4500 (((2000:ℚ) + 4500) / 2 * Rat.sqrt (r / 200)) (by norm_num)
      push_cast at h2
      simpa [getMaterial, MATERIALS] using h2
    case LLDPE =>
      have h2 := key 3000 6000 (((3000:ℚ) + 6000) / 2 * Rat.sqrt (r / 200)) (by norm_num)
      push_cast at h2
      simpa [getMaterial, MATERIALS] using h2
    case EVOH =>
      have h2 := key 2800 5000 (((2800:ℚ) + 5000) / 2 * Rat.sqrt (r / 200)) (by norm_num)
      push_cast at h2
      simpa [getMaterial, MATERIALS] using h2

/-- C3 witness: the amended range ordering holds concretely for HDPE at
targetOD 20, targetGauge 1.5, productionRate 200 (where the rate band 32
to 48 RPM overlaps the HDPE window 30 to 120 RPM). -/
theorem output_ranges_ordered_witness :
    ((optimizeParameters ⟨.HDPE, 20, 1.5, 200⟩).screwSpeed.min ≤
        (optimizeParameters ⟨.HDPE, 20, 1.5, 200⟩).screwSpeed.recommended ∧
      (optimizeParameters ⟨.HDPE, 20, 1.5, 200⟩).screwSpeed.recommended ≤
        (optimizeParameters ⟨.HDPE, 20, 1.5, 200⟩).screwSpeed.max) ∧
    ((optimizeParameters ⟨.HDPE, 20, 1.5, 200⟩).lineSpeed.min ≤
        (optimizeParameters ⟨.HDPE, 20, 1.5, 200⟩).lineSpeed.recommended ∧
      (optimizeParameters ⟨.HDPE, 20, 1.5, 200⟩).lineSpeed.recommended ≤
        (optimizeParameters ⟨.HDPE, 20, 1.5, 200⟩).lineSpeed.max) ∧
    ((optimizeParameters ⟨.HDPE, 20, 1.5, 200⟩).meltPressure.min ≤
        (optimizeParameters ⟨.HDPE, 20, 1.5, 200⟩).meltPressure.target ∧
      (optimizeParameters ⟨.HDPE, 20, 1.5, 200⟩).meltPressure.target ≤
        (optimizeParameters ⟨.HDPE, 20, 1.5, 200⟩).meltPressure.max) :=
  output_ranges_ordered .HDPE 20 1.5 200 (by norm_num) (by norm_num) (by norm_num)
    (by norm_num [getMaterial, MATERIALS]) (by norm_num [getMaterial, MATERIALS])

/-- C7: holding material, targetOD and targetGauge fixed, every
production rate above 500 yields a confidence score no larger than the
score at production rate 500. -/
theorem confidence_monotone_beyond_500 (m : MaterialType) (od g r : ℚ) (h : 500 < r) :
    confidenceScore ⟨m, od, g, r⟩ ≤ confidenceScore ⟨m, od, g, 500⟩ := by
  have h1 : ¬ ((r : ℚ) < 50) := by linarith
  have h2 : ¬ ((500 : ℚ) < 50) := by norm_num
  have h3 : ¬ ((500 : ℚ) > 500) := by norm_num
  simp only [confidenceScore, h1, h2, h3, if_neg, not_false_iff, if_false, gt_iff_lt, if_pos h]
  split_ifs <;> linarith

/-- C7 witness: for LDPE, targetOD 20, targetGauge 1.5, the confidence
score at production rate 600 is at most the score at 500. -/
theorem confidence_monotone_beyond_500_witness :
    confidenceScore ⟨.LDPE, 20, 1.5, 600⟩ ≤ confidenceScore ⟨.LDPE, 20, 1.5, 500⟩ :=
  confidence_monotone_beyond_500 .LDPE 20 1.5 600 (by norm_num)

/-- C8: above production rate 300 the compression, metering and die
barrel temperatures each equal the material recommended value plus 10
while feed stays at the recommended value; at or below 300 all four
equal the material recommended values. -/
theorem barrel_temp_offset_above_300 (inputs : OptimizeInputs) :
    (300 < inputs.productionRate →
      (optimizeParameters inputs).barrelTemps =
        { feed := (getMaterial inputs.material).barrelTemperatures.feed.recommended
          compression := (getMaterial inputs.material).barrelTemperatures.compression.recommended + 10
          metering := (getMaterial inputs.material).barrelTemperatures.metering.recommended + 10
          die := (getMaterial inputs.material).barrelTemperatures.die.recommended + 10 }) ∧
    (inputs.productionRate ≤ 300 →
      (optimizeParameters inputs).barrelTemps =
        { feed := (getMaterial inputs.material).barrelTemperatures.feed.recommended
          compression := (getMaterial inputs.material).barrelTemperatures.compression.recommended
          metering := (getMaterial inputs.material).barrelTemperatures.metering.recommended
          die := (getMaterial inputs.material).barrelTemperatures.die.recommended }) := by
  have e : (optimizeParameters inputs).barrelTemps =
      { feed := (getMaterial inputs.material).barrelTemperatures.feed.recommended
        compression := (getMaterial inputs.material).barrelTemperatures.compression.recommended +
          (if inputs.productionRate > 300 then (10:ℚ) else 0)
        metering := (getMaterial inputs.material).barrelTemperatures.metering.recommended +
          (if inputs.productionRate > 300 then (10:ℚ) else 0)
        die := (getMaterial inputs.material).barrelTemperatures.die.recommended +
          (if inputs.productionRate > 300 then (10:ℚ) else 0) } := rfl
  constructor
  · intro h
    rw [e, if_pos h]
  · intro h
    rw [e, if_neg (not_lt.mpr h)]
    simp

/-- C8 witness: for LDPE the barrel temperatures carry the +10 offset on
compression, metering and die at production rate 350, and equal the
recommended values unchanged at production rate 200. -/
theorem barrel_temp_offset_above_300_witness :
    (optimizeParameters ⟨.LDPE, 20, 1.5, 350⟩).barrelTemps =
      { feed := (getMaterial .LDPE).barrelTemperatures.feed.recommended
        compression := (getMaterial .LDPE).barrelTemperatures.compression.recommended + 10
        metering := (getMaterial .LDPE).barrelTemperatures.metering.recommended + 10
        die := (getMaterial .LDPE).barrelTemperatures.die.recommended + 10 } ∧
    (optimizeParameters ⟨.LDPE, 20, 1.5, 200⟩).barrelTemps =
      { feed := (getMaterial .LDPE).barrelTemperatures.feed.recommended
        compression := (getMaterial .LDPE).barrelTemperatures.compression.recommended
        metering := (getMaterial .LDPE).barrelTemperatures.metering.recommended
        die := (getMaterial .LDPE).barrelTemperatures.die.recommended } :=
  ⟨(barrel_temp_offset_above_300 ⟨.LDPE, 20, 1.5, 350⟩).1 (by norm_num),
   (barrel_temp_offset_above_300 ⟨.LDPE, 20, 1.5, 200⟩).2 (by norm_num)⟩

/-- C4 counterexample: called with identities outside the enumerations
("PVC", "tearing"), both table lookups complete normally and yield the
absent value undefined (Except.ok none); no exception or assertion is
raised, contradicting the claimed fail-fast behaviour. -/
theorem lookup_unknown_key_no_exception :
    getMaterialJS "PVC" = Except.ok none ∧ getDefectInfoJS "tearing" = Except.ok none := by
  constructor <;> rfl

/-- C4 (amended): for every identity string outside the fixed
enumerations, the runtime table lookups complete without raising and
return the absent value undefined (none), never a defaulted profile;
exclusion of such calls is enforced only statically by the TypeScript
types. -/
theorem lookup_unknown_key_returns_undefined (s : String)
    (hm : s ∉ MATERIAL_KEYS) (hd : s ∉ DEFECT_KEYS) :
    getMaterialJS s = Except.ok none ∧ getDefectInfoJS s = Except.ok none := by
  constructor
  · have h : materialForKey s = none := by
      unfold materialForKey
      repeat rw [if_neg (fun hEq => hm (by rw [hEq]; decide))]
    rw [getMaterialJS, h]
    rfl
  · have h : defectForKey s = none := by
      unfold defectForKey
      repeat rw [if_neg (fun hEq => hd (by rw [hEq]; decide))]
    rw [getDefectInfoJS, h]
    rfl

/-- C4 witness: the identity "PVC" is outside both enumerations and both
lookups return Except.ok none on it. -/
theorem lookup_unknown_key_returns_undefined_witness :
    ("PVC" ∉ MATERIAL_KEYS ∧ "PVC" ∉ DEFECT_KEYS) ∧
    getMaterialJS "PVC" = Except.ok none ∧ getDefectInfoJS "PVC" = Except.ok none :=
  ⟨⟨by decide, by decide⟩,
    lookup_unknown_key_returns_undefined "PVC" (by decide) (by decide)⟩

/-- C1 (code bug): diagnoseDefect is not idempotent.  On the request
material EVOH, settings meltTemp 400, screwSpeed 50, lineSpeed 300,
dieTemp 415, defect voids_bubbles, the first call escalates the cause
labelled "Moisture in material" and appends the EVOH annotation to the
explanation held in the shared table entry; an identical second call
appends the same annotation again, so the two results differ. -/
theorem diagnose_not_idempotent_on_repeat :
    (diagnoseDefectS DEFECT_DATABASE repeatRequest).1 ≠
      (diagnoseDefectS (diagnoseDefectS DEFECT_DATABASE repeatRequest).2 repeatRequest).1 := by
  decide

/-- C2 (code bug): diagnoseDefect mutates the static defect table.  After
the call on the EVOH voids_bubbles request, the stored voids_bubbles
entry differs from its load-time value: the spread in analyzeCauses
copies the causes array but not the CauseEntry objects inside, and the
forEach body assigns to their probability and explanation fields. -/
theorem diagnose_mutates_defect_table :
    (diagnoseDefectS DEFECT_DATABASE repeatRequest).2 DefectType.voids_bubbles ≠
      DEFECT_DATABASE DefectType.voids_bubbles := by
  decide

/-- The escalation step never changes a cause label or its adjustments
list, whatever the flags and material. -/
theorem adjustCause_keeps_label_adjustments (fl : SettingFlags) (mat : MaterialType)
    (c : DefectCause) :
    (adjustCause fl mat c).cause = c.cause ∧
    (adjustCause fl mat c).adjustments = c.adjustments := by
  unfold adjustCause
  dsimp only
  split_ifs <;> simp

/-- When the label matches the temperature and low patterns and a low
temperature flag is set, the escalation step outputs probability high and
an explanation starting with the original text followed by the low
temperature annotation. -/
theorem adjustCause_tempLow (fl : SettingFlags) (mat : MaterialType) (c : DefectCause)
    (htemp : (jsIncludes (jsToLower c.cause) "temperature" ||
      jsIncludes (jsToLower c.cause) "temp") = true)
    (hlow : jsIncludes (jsToLower c.cause) "low" = true)
    (hfl : (fl.meltTempLow || fl.dieTempLow) = true) :
    (adjustCause fl mat c).probability = Probability.high ∧
    ∃ rest, (adjustCause fl mat c).explanation =
      c.explanation ++ " [Current settings confirm low temperature condition]" ++ rest := by
  have hB : (jsIncludes (jsToLower c.cause) "low" && (fl.meltTempLow || fl.dieTempLow)) = true := by
    rw [Bool.and_eq_true]
    exact ⟨hlow, hfl⟩
  unfold adjustCause
  dsimp only
  rw [if_pos htemp, if_pos hB]
  have extend : ∀ {x base : String}, (∃ r, x = base ++ r) → ∀ s, ∃ r, x ++ s = base ++ r := by
    rintro x base ⟨r, rfl⟩ s
    exact ⟨r ++ s, by rw [String.append_assoc]⟩
  constructor
  · split_ifs <;> rfl
  · split_ifs <;> dsimp only <;>
      repeat' first
        | exact ⟨"", (String.append_empty _).symm⟩
        | refine extend ?_ _

/-- C10: for every diagnose request, the causes list of the result is a
permutation of the defect's static cause list when both are viewed
through their labels and adjustments (same length, same labels, same
adjustment lists; only probability, explanation and order may differ). -/
theorem diagnose_causes_permutation (inputs : DiagnoseInputs) :
    ((diagnoseDefectS DEFECT_DATABASE inputs).1.causes.map
        (fun c => (c.cause, c.adjustments))).Perm
      ((DEFECT_DATABASE inputs.defect).causes.map (fun c => (c.cause, c.adjustments))) ∧
    (diagnoseDefectS DEFECT_DATABASE inputs).1.causes.length =
      (DEFECT_DATABASE inputs.defect).causes.length := by
  have e : (diagnoseDefectS DEFECT_DATABASE inputs).1.causes =
      List.insertionSort causeLE
        ((DEFECT_DATABASE inputs.defect).causes.map
          (adjustCause (computeFlags inputs) inputs.material)) := rfl
  have hperm : ((diagnoseDefectS DEFECT_DATABASE inputs).1.causes).Perm
      ((DEFECT_DATABASE inputs.defect).causes.map
        (adjustCause (computeFlags inputs) inputs.material)) := by
    rw [e]
    exact List.perm_insertionSort _ _
  constructor
  · have h1 := hperm.map (fun c => (c.cause, c.adjustments))
    have h2 : ((DEFECT_DATABASE inputs.defect).causes.map
        (adjustCause (computeFlags inputs) inputs.material)).map
          (fun c => (c.cause, c.adjustments)) =
        (DEFECT_DATABASE inputs.defect).causes.map (fun c => (c.cause, c.adjustments)) := by
      rw [List.map_map]
      apply List.map_congr_left
      intro c _
      have := adjustCause_keeps_label_adjustments (computeFlags inputs) inputs.material c
      simp [Function.comp, this.1, this.2]
    rw [← h2]
    exact h1
  · rw [hperm.length_eq, List.length_map]

/-- C6: whenever a defect's static cause list contains a cause whose
lowered label matches "temperature" or "temp" and also matches "low",
and the request's meltTemp is below the material's melt range minimum or
its dieTemp is below the material's die zone minimum, the diagnosis
result contains that cause with probability high, unchanged label and
adjustments, and the low temperature annotation appended to its
explanation. -/
theorem temp_low_cause_escalated_to_high (inputs : DiagnoseInputs) (c : DefectCause)
    (hmem : c ∈ (DEFECT_DATABASE inputs.defect).causes)
    (htemp : (jsIncludes (jsToLower c.cause) "temperature" ||
      jsIncludes (jsToLower c.cause) "temp") = true)
    (hlow : jsIncludes (jsToLower c.cause) "low" = true)
    (hcold : inputs.currentSettings.meltTemp < (getMaterial inputs.material).meltTempRange.min ∨
      inputs.currentSettings.dieTemp <
        (getMaterial inputs.material).barrelTemperatures.die.min) :
    ∃ c' ∈ (diagnoseDefectS DEFECT_DATABASE inputs).1.causes,
      c'.cause = c.cause ∧ c'.adjustments = c.adjustments ∧
      c'.probability = Probability.high ∧
      ∃ rest, c'.explanation =
        c.explanation ++ " [Current settings confirm low temperature condition]" ++ rest := by
  have hfl : ((computeFlags inputs).meltTempLow || (computeFlags inputs).dieTempLow) = true := by
    rcases hcold with h | h
    · have h1 : (computeFlags inputs).meltTempLow = true := by
        simp [computeFlags, h]
      rw [h1, Bool.true_or]
    · have h1 : (computeFlags inputs).dieTempLow = true := by
        simp [computeFlags, h]
      rw [h1, Bool.or_true]
  refine ⟨adjustCause (computeFlags inputs) inputs.material c, ?_, ?_, ?_, ?_, ?_⟩
  · have e : (diagnoseDefectS DEFECT_DATABASE inputs).1.causes =
        List.insertionSort causeLE
          ((DEFECT_DATABASE inputs.defect).causes.map
            (adjustCause (computeFlags inputs) inputs.material)) := rfl
    rw [e, List.mem_insertionSort]
    exact List.mem_map_of_mem _ hmem
  · exact (adjustCause_keeps_label_adjustments _ _ c).1
  · exact (adjustCause_keeps_label_adjustments _ _ c).2
  · exact (adjustCause_tempLow _ _ c htemp hlow hfl).1
  · exact (adjustCause_tempLow _ _ c htemp hlow hfl).2

/-- C6 witness: for HDPE at meltTemp 300 (below the HDPE melt minimum of
400) observing melt_fracture, the static cause "Melt temperature too
low" appears in the diagnosis escalated to high with the annotation
appended. -/
theorem temp_low_cause_escalated_to_high_witness :
    ∃ c' ∈ (diagnoseDefectS DEFECT_DATABASE
        ⟨.HDPE, ⟨300, 50, 100, 450⟩, .melt_fracture⟩).1.causes,
      c'.cause = "Melt temperature too low" ∧
      c'.adjustments =
        [ "Increase metering zone temp by 10-20°F",
          "Increase die temp by 10-15°F",
          "Allow stabilization time (10-15 min)" ] ∧
      c'.probability = Probability.high ∧
      ∃ rest, c'.explanation =
        "Lower temperatures increase melt viscosity, raising shear stress at the die wall." ++
          " [Current settings confirm low temperature condition]" ++ rest :=
  temp_low_cause_escalated_to_high ⟨.HDPE, ⟨300, 50, 100, 450⟩, .melt_fracture⟩
    { cause := "Melt temperature too low"
      probability := .high
      adjustments :=
        [ "Increase metering zone temp by 10-20°F",
          "Increase die temp by 10-15°F",
          "Allow stabilization time (10-15 min)" ]
      explanation :=
        "Lower temperatures increase melt viscosity, raising shear stress at the die wall." }
    (by decide) (by decide) (by decide) (Or.inl (by decide))

end Engine
